import Mathlib

/-!
Shallow embedding of the relevance-scoring core of the Query repository
(`src/scoring.py`, class `RelevanceScorer`) and of the per-document batch
scoring loop of `src/run_query.py` (`process_query`, step 4).

Python floats are modelled as real numbers; Python `datetime` values are
modelled as a record of calendar components plus an optional UTC-offset
(`tz`), `None` tzinfo being `Option.none`.  Python exceptions are modelled
with `Except` over an error type naming the failure classes the spec calls
`InvalidRankError`, `InvalidTimestampError` and `MissingFieldError`, plus
the `ZeroDivisionError` that integer-over-float division can raise and the
`TypeError`/`AttributeError` that a wrongly-typed field raises.
-/

namespace Query

/-- A Python `datetime.datetime`: proleptic-Gregorian calendar components
plus an optional fixed UTC offset in seconds (`tzinfo`); `tz = none` is a
naive datetime. -/
structure DateTime where
  year : ℤ
  month : ℤ
  day : ℤ
  hour : ℤ
  minute : ℤ
  second : ℤ
  micro : ℤ
  tz : Option ℤ
deriving DecidableEq, Repr

/-- Leap-year test of the proleptic Gregorian calendar (as `calendar.isleap`). -/
def isLeap (y : ℤ) : Bool :=
  y % 4 == 0 && (y % 100 != 0 || y % 400 == 0)

/-- Number of days in month `m` of year `y`. -/
def daysInMonth (y m : ℤ) : ℤ :=
  if m == 2 then (if isLeap y then 29 else 28)
  else if m == 4 || m == 6 || m == 9 || m == 11 then 30
  else 31

/-- Days elapsed from 1970-01-01 to the civil date `y-m-d`
(Howard Hinnant's `days_from_civil`, the arithmetic underlying
`datetime.toordinal` up to the epoch shift). -/
def daysFromCivil (y m d : ℤ) : ℤ :=
  let y' := if m ≤ 2 then y - 1 else y
  let era := Int.fdiv y' 400
  let yoe := y' - era * 400
  let mp := if 2 < m then m - 3 else m + 9
  let doy := Int.fdiv (153 * mp + 2) 5 + d - 1
  let doe := yoe * 365 + Int.fdiv yoe 4 - Int.fdiv yoe 100 + doy
  era * 146097 + doe - 719468

/-- Microseconds in one day. -/
def microsPerDay : ℤ := 86400000000

/-- The naive (wall-clock) value of a datetime in microseconds since the
epoch, ignoring `tz` — exactly what naive-datetime subtraction compares. -/
def toMicro (d : DateTime) : ℤ :=
  ((daysFromCivil d.year d.month d.day) * 86400
      + d.hour * 3600 + d.minute * 60 + d.second) * 1000000 + d.micro

/-- `d.replace(tzinfo=None)`: drop the offset, keep the wall-clock fields. -/
def stripTz (d : DateTime) : DateTime :=
  { d with tz := none }

/-- `(cur - doc).days` for two naive datetimes: Python's `timedelta.days`
is the floor of the exact difference in days (timedelta normalisation keeps
`0 ≤ seconds < 86400`, pushing the sign into `days`). -/
def daysDiff (cur doc : DateTime) : ℤ :=
  Int.fdiv (toMicro cur - toMicro doc) microsPerDay

/-! ### `datetime.fromisoformat` (CPython < 3.11 grammar)

`fromisoformat` accepts exactly the strings `datetime.isoformat` emits:
`YYYY-MM-DD`, optionally followed by one separator character and
`HH[:MM[:SS[.fff[fff]]]]`, optionally followed by an offset
`±HH:MM[:SS]`.  It does not accept a `Z` suffix — which is why
`calculate_recency_score` first rewrites `Z` to `+00:00`. -/

/-- Numeric value of a decimal digit character. -/
def digitVal (c : Char) : ℤ :=
  (c.toNat : ℤ) - 48

/-- Read exactly two decimal digits. -/
def parse2 : List Char → Option (ℤ × List Char)
  | a :: b :: rest =>
      if a.isDigit && b.isDigit then some (10 * digitVal a + digitVal b, rest) else none
  | _ => none

/-- Read exactly four decimal digits. -/
def parse4 : List Char → Option (ℤ × List Char)
  | a :: b :: c :: d :: rest =>
      if a.isDigit && b.isDigit && c.isDigit && d.isDigit then
        some (1000 * digitVal a + 100 * digitVal b + 10 * digitVal c + digitVal d, rest)
      else none
  | _ => none

/-- Consume one expected character. -/
def expectChar (c : Char) : List Char → Option (List Char)
  | a :: rest => if a = c then some rest else none
  | _ => none

/-- Read the `HH[:MM[:SS[.fff[fff]]]]` time part; returns
`(hour, minute, second, microsecond, rest)`. -/
def parseTimePart (s : List Char) : Option (ℤ × ℤ × ℤ × ℤ × List Char) := do
  let (hh, s) ← parse2 s
  match expectChar ':' s with
  | none => some (hh, 0, 0, 0, s)
  | some s => do
    let (mm, s) ← parse2 s
    match expectChar ':' s with
    | none => some (hh, mm, 0, 0, s)
    | some s => do
      let (ss, s) ← parse2 s
      match expectChar '.' s with
      | none => some (hh, mm, ss, 0, s)
      | some s =>
        match s with
        | a :: b :: c :: d :: e :: f :: rest =>
            if a.isDigit && b.isDigit && c.isDigit && d.isDigit && e.isDigit && f.isDigit then
              some (hh, mm, ss,
                100000 * digitVal a + 10000 * digitVal b + 1000 * digitVal c
                  + 100 * digitVal d + 10 * digitVal e + digitVal f, rest)
            else if a.isDigit && b.isDigit && c.isDigit then
              some (hh, mm, ss, 1000 * (100 * digitVal a + 10 * digitVal b + digitVal c),
                d :: e :: f :: rest)
            else none
        | a :: b :: c :: rest =>
            if a.isDigit && b.isDigit && c.isDigit then
              some (hh, mm, ss, 1000 * (100 * digitVal a + 10 * digitVal b + digitVal c), rest)
            else none
        | _ => none

/-- Read the `±HH:MM[:SS]` offset; returns the offset in seconds.  The whole
remainder must be consumed. -/
def parseOffset (s : List Char) : Option ℤ := do
  let (sign, s) ←
    match s with
    | '+' :: rest => some ((1 : ℤ), rest)
    | '-' :: rest => some ((-1 : ℤ), rest)
    | _ => none
  let (hh, s) ← parse2 s
  let s ← expectChar ':' s
  let (mm, s) ← parse2 s
  match s with
  | [] => some (sign * (hh * 3600 + mm * 60))
  | ':' :: s =>
    match parse2 s with
    | some (ss, []) => some (sign * (hh * 3600 + mm * 60 + ss))
    | _ => none
  | _ => none

/-- `datetime.fromisoformat` on a character list: date, optional time after
a single arbitrary separator character, optional offset; component ranges
are validated exactly as the `datetime` constructor validates them. -/
def fromisoformat (s : List Char) : Option DateTime := do
  let (y, s) ← parse4 s
  let s ← expectChar '-' s
  let (mo, s) ← parse2 s
  let s ← expectChar '-' s
  let (d, s) ← parse2 s
  if !(1 ≤ y && y ≤ 9999 && 1 ≤ mo && mo ≤ 12 && 1 ≤ d && d ≤ daysInMonth y mo) then
    none
  else
    match s with
    | [] => some ⟨y, mo, d, 0, 0, 0, 0, none⟩
    | _sep :: s => do
      let (hh, mm, ss, us, s) ← parseTimePart s
      if !(hh ≤ 23 && mm ≤ 59 && ss ≤ 59) then none
      else
        match s with
        | [] => some ⟨y, mo, d, hh, mm, ss, us, none⟩
        | _ => do
          let off ← parseOffset s
          if 86400 ≤ off.natAbs then none
          else some ⟨y, mo, d, hh, mm, ss, us, some off⟩

/-- `timestamp.replace('Z', '+00:00')`: every `Z` becomes `+00:00`. -/
def replaceZ : List Char → List Char
  | [] => []
  | c :: rest =>
      if c = 'Z' then '+' :: '0' :: '0' :: ':' :: '0' :: '0' :: replaceZ rest
      else c :: replaceZ rest

/-- The two-attempt parse of `calculate_recency_score` lines 66-71: first
`fromisoformat` on the string with `Z` rewritten to `+00:00`; if that
raises `ValueError`, `fromisoformat` on the original string. -/
def parseTimestampStr (s : String) : Option DateTime :=
  match fromisoformat (replaceZ s.data) with
  | some d => some d
  | none => fromisoformat s.data

/-! ### Errors and the scorer -/

/-- The failure classes of the scoring layer.  The source raises plain
`ValueError`s; the spec names them `InvalidRankError` (rank ≤ 0),
`InvalidTimestampError` (unparsable timestamp) and `MissingFieldError`
(no `timestamp` key).  `zeroDivision` is Python's `ZeroDivisionError`
from `days_diff / decay_days` when `decay_days == 0`; `typeError` stands
for the `TypeError`/`AttributeError` a wrongly-typed field raises. -/
inductive ScoringError where
  | invalidRank
  | invalidTimestamp
  | missingField
  | zeroDivision
  | typeError
deriving DecidableEq, Repr

/-- `RelevanceScorer.__init__`: the four configuration constants, with the
constructor's default values. -/
structure RelevanceScorer where
  base_weight : ℝ := 0.6
  recency_weight : ℝ := 0.4
  decay_days : ℝ := 30
  default_engagement : ℝ := 0.5

/-- Python true division `a / b`, which raises `ZeroDivisionError` when
`b == 0` (real division in Lean would silently return 0 there). -/
noncomputable def pydiv (a b : ℝ) : Except ScoringError ℝ :=
  if b = 0 then .error .zeroDivision else .ok (a / b)

/-- Python `round(x, 6)`: scale by 10⁶, round to the nearest integer,
scale back.  (Python breaks exact ties to the even digit; Mathlib's
`round` breaks them upward — the tie case is never exercised here.) -/
noncomputable def roundTo6 (x : ℝ) : ℝ :=
  ((round (x * 1000000) : ℤ) : ℝ) / 1000000

/-- A value stored in a document record (`Dict[str, Any]`). -/
inductive Value where
  | int (n : ℤ)
  | real (x : ℝ)
  | str (s : String)
  | dt (d : DateTime)

/-- A document: a Python dict as an ordered association list with unique
keys (insertion order preserved, as dicts preserve it). -/
abbrev Doc := List (String × Value)

/-- `d[k]` / `d.get(k)`: the value at the first matching key. -/
def dget : Doc → String → Option Value
  | [], _ => none
  | (k', v) :: rest, k => if k' = k then some v else dget rest k

/-- `d[k] = v`: overwrite in place if the key exists, else append. -/
def dset : Doc → String → Value → Doc
  | [], k, v => [(k, v)]
  | (k', v') :: rest, k, v =>
      if k' = k then (k, v) :: rest else (k', v') :: dset rest k v

namespace RelevanceScorer

/-- `calculate_base_rank_score` (scoring.py lines 33-45): reject
`rank <= 0`, else return `1.0 / rank`. -/
noncomputable def calculate_base_rank_score (_S : RelevanceScorer) (rank : ℤ) :
    Except ScoringError ℝ :=
  if rank ≤ 0 then .error .invalidRank else .ok (1 / (rank : ℝ))

/-- Lines 66-73 of `calculate_recency_score`: a string timestamp goes
through the two-attempt ISO parse, a `datetime` is used as is; any other
runtime type fails at the later `timestamp.tzinfo` attribute access. -/
def toDocDate : Value → Except ScoringError DateTime
  | .str s =>
      match parseTimestampStr s with
      | some d => .ok d
      | none => .error .invalidTimestamp
  | .dt d => .ok d
  | _ => .error .typeError

/-- The exponential-decay step (scoring.py line 85) as a function of the
whole-day difference: `exp(-days_diff / decay_days)`. -/
noncomputable def recencyFromDays (S : RelevanceScorer) (days : ℤ) :
    Except ScoringError ℝ := do
  let q ← pydiv (-(days : ℝ)) S.decay_days
  return Real.exp q

/-- `calculate_recency_score` (scoring.py lines 47-87): parse the
timestamp, strip timezone info from both sides, take the whole-day
difference `(current_date - doc_date).days`, and decay exponentially.
The `current_date = None` default (wall-clock now) is not modelled; the
reference time is always passed explicitly. -/
noncomputable def calculate_recency_score (S : RelevanceScorer) (timestamp : Value)
    (current_date : DateTime) : Except ScoringError ℝ := do
  let doc_date ← toDocDate timestamp
  let doc_date := stripTz doc_date
  let current_date := stripTz current_date
  S.recencyFromDays (daysDiff current_date doc_date)

/-- `calculate_relevance_score` (scoring.py lines 89-114): the
fixed-weight linear blend of the two component scores. -/
noncomputable def calculate_relevance_score (S : RelevanceScorer) (rank : ℤ)
    (timestamp : Value) (current_date : DateTime) : Except ScoringError ℝ := do
  let base_score ← S.calculate_base_rank_score rank
  let recency_score ← S.calculate_recency_score timestamp current_date
  return S.base_weight * base_score + S.recency_weight * recency_score

end RelevanceScorer

/-- `document.get('rank', 1)` (scoring.py line 135): the silent default. -/
def rankValue (d : Doc) : Value :=
  (dget d "rank").getD (.int 1)

/-- The rank value as the `int` the type hints promise; the pipeline
always stores an integer rank (`structure_json_document` passes `i + 1`),
and any other runtime type fails inside Python's `rank <= 0` / `1.0 / rank`
with a `TypeError`. -/
def getRankInt : Value → Except ScoringError ℤ
  | .int n => .ok n
  | _ => .error .typeError

namespace RelevanceScorer

/-- The four assignments of scoring.py lines 147-150: write the three
scores rounded to 6 decimal places and the engagement constant (unrounded)
into the (copied) document. -/
noncomputable def writeScores (S : RelevanceScorer) (d : Doc) (b r rel : ℝ) : Doc :=
  dset (dset (dset (dset d
    "base_rank_score" (.real (roundTo6 b)))
    "recency_score" (.real (roundTo6 r)))
    "relevance_score" (.real (roundTo6 rel)))
    "user_engagement_score" (.real S.default_engagement)

/-- `enrich_document` (scoring.py lines 116-152): copy the input, default
the rank, require a timestamp, compute the three scores (base first, then
recency, then the blend, any failure propagating unchanged), and write the
four score fields. -/
noncomputable def enrich_document (S : RelevanceScorer) (document : Doc)
    (current_date : DateTime) : Except ScoringError Doc := do
  let rankv := rankValue document
  match dget document "timestamp" with
  | none => .error .missingField
  | some timestamp => do
    let rank ← getRankInt rankv
    let base_rank_score ← S.calculate_base_rank_score rank
    let recency_score ← S.calculate_recency_score timestamp current_date
    let relevance_score ← S.calculate_relevance_score rank timestamp current_date
    return S.writeScores document base_rank_score recency_score relevance_score

end RelevanceScorer

/-- The per-document scoring loop of `process_query` (run_query.py lines
76-89): each document is enriched; on failure a warning is recorded (the
count is the second component) and the document is kept unscored, so the
batch is never aborted and the 1:1 order-preserving correspondence holds. -/
noncomputable def scoreLoop (S : RelevanceScorer) (current_date : DateTime) :
    List Doc → List Doc × ℕ
  | [] => ([], 0)
  | d :: rest =>
      let (tail, fails) := scoreLoop S current_date rest
      match S.enrich_document d current_date with
      | .ok e => (e :: tail, fails)
      | .error _ => (d :: tail, fails + 1)

/-- The tuple of the four score fields of a document, used to compare
enrichment outputs field by field. -/
def scoreFields (d : Doc) : Option Value × Option Value × Option Value × Option Value :=
  (dget d "base_rank_score", dget d "recency_score",
   dget d "relevance_score", dget d "user_engagement_score")

/-- The scorer `process_query` constructs (run_query.py lines 69-74),
which is also the constructor's default configuration. -/
noncomputable def sampleScorer : RelevanceScorer := ⟨0.6, 0.4, 30, 0.5⟩

/-- A concrete reference time: 2024-03-05 12:00, naive. -/
def sampleCur : DateTime := ⟨2024, 3, 5, 12, 0, 0, 0, none⟩

/-- What `fromisoformat` yields for `2024-03-05T00:00:00+00:00`. -/
def sampleDT : DateTime := ⟨2024, 3, 5, 0, 0, 0, 0, some 0⟩

/-- A well-formed document: rank 1, timestamp less than a day before
`sampleCur` (so the whole-day difference is zero). -/
def sampleDoc : Doc := [("rank", .int 1), ("timestamp", .str "2024-03-05T00:00:00Z")]

/-- A document whose timestamp parses under neither accepted form. -/
def badDoc : Doc := [("rank", .int 1), ("timestamp", .str "not-a-date")]

/-- `sampleDoc` after enrichment against `sampleCur`: both component
scores are 1, so the blended score is `base_weight + recency_weight`. -/
noncomputable def sampleEnriched : Doc :=
  sampleScorer.writeScores sampleDoc 1 1
    (sampleScorer.base_weight * 1 + sampleScorer.recency_weight * 1)

/-! ### Dictionary lemmas -/

theorem dget_dset_self (d : Doc) (k : String) (v : Value) :
    dget (dset d k v) k = some v := by
  induction d with
  | nil => simp [dget, dset]
  | cons hd tl ih =>
      by_cases h : hd.1 = k
      · obtain ⟨k', v'⟩ := hd
        simp only at h
        simp [dget, dset, h]
      · obtain ⟨k', v'⟩ := hd
        simp only at h
        simp [dget, dset, h, ih]

theorem dget_dset_ne (d : Doc) (k k' : String) (v : Value) (hne : k' ≠ k) :
    dget (dset d k v) k' = dget d k' := by
  induction d with
  | nil => simp [dget, dset, Ne.symm hne]
  | cons hd tl ih =>
      obtain ⟨k₀, v₀⟩ := hd
      by_cases h : k₀ = k
      · subst h
        simp [dget, dset, hne, Ne.symm hne]
      · by_cases h' : k₀ = k'
        · subst h'
          simp [dget, dset, h, hne]
        · simp [dget, dset, h, h', ih]

theorem dset_eq_append (d : Doc) (k : String) (v : Value) (h : dget d k = none) :
    dset d k v = d ++ [(k, v)] := by
  induction d with
  | nil => simp [dset]
  | cons hd tl ih =>
      obtain ⟨k₀, v₀⟩ := hd
      by_cases hk : k₀ = k
      · simp [dget, hk] at h
      · simp only [dget, hk, if_false] at h
        simp [dset, hk, ih h]

/-! ### Unfolding lemmas for the scoring operations -/

namespace RelevanceScorer

theorem base_rank_ok (S : RelevanceScorer) (rank : ℤ) (h : 1 ≤ rank) :
    S.calculate_base_rank_score rank = .ok (1 / (rank : ℝ)) := by
  simp only [calculate_base_rank_score, if_neg (by omega : ¬ rank ≤ 0)]

theorem base_rank_err (S : RelevanceScorer) (rank : ℤ) (h : rank ≤ 0) :
    S.calculate_base_rank_score rank = .error .invalidRank := by
  simp [calculate_base_rank_score, h]

theorem recencyFromDays_ok (S : RelevanceScorer) (days : ℤ) (h : S.decay_days ≠ 0) :
    S.recencyFromDays days = .ok (Real.exp (-(days : ℝ) / S.decay_days)) := by
  simp [recencyFromDays, pydiv, h]

theorem recencyFromDays_zero (S : RelevanceScorer) (days : ℤ) (h : S.decay_days = 0) :
    S.recencyFromDays days = .error .zeroDivision := by
  simp [recencyFromDays, pydiv, h]

theorem recency_str_eq (S : RelevanceScorer) (s : String) (dt : DateTime) (cur : DateTime)
    (hp : parseTimestampStr s = some dt) :
    S.calculate_recency_score (.str s) cur =
      S.recencyFromDays (daysDiff (stripTz cur) (stripTz dt)) := by
  simp [calculate_recency_score, toDocDate, hp, bind, Except.bind]

theorem recency_str_err (S : RelevanceScorer) (s : String) (cur : DateTime)
    (hp : parseTimestampStr s = none) :
    S.calculate_recency_score (.str s) cur = .error .invalidTimestamp := by
  simp [calculate_recency_score, toDocDate, hp, bind, Except.bind]

theorem relevance_eq (S : RelevanceScorer) (rank : ℤ) (ts : Value) (cur : DateTime)
    (b r : ℝ) (hb : S.calculate_base_rank_score rank = .ok b)
    (hr : S.calculate_recency_score ts cur = .ok r) :
    S.calculate_relevance_score rank ts cur =
      .ok (S.base_weight * b + S.recency_weight * r) := by
  simp [calculate_relevance_score, hb, hr, bind, Except.bind, pure, Except.pure]

theorem enrich_ok (S : RelevanceScorer) (d : Doc) (cur : DateTime) (ts : Value)
    (rank : ℤ) (b r : ℝ)
    (hts : dget d "timestamp" = some ts)
    (hrank : getRankInt (rankValue d) = .ok rank)
    (hb : S.calculate_base_rank_score rank = .ok b)
    (hr : S.calculate_recency_score ts cur = .ok r) :
    S.enrich_document d cur =
      .ok (S.writeScores d b r (S.base_weight * b + S.recency_weight * r)) := by
  simp [enrich_document, hts, hrank, hb, hr, relevance_eq S rank ts cur b r hb hr,
    bind, Except.bind, Functor.map, Except.map, pure, Except.pure]

theorem enrich_missing (S : RelevanceScorer) (d : Doc) (cur : DateTime)
    (hts : dget d "timestamp" = none) :
    S.enrich_document d cur = .error .missingField := by
  simp [enrich_document, hts]

theorem enrich_err_rank (S : RelevanceScorer) (d : Doc) (cur : DateTime) (ts : Value)
    (er : ScoringError)
    (hts : dget d "timestamp" = some ts)
    (hrank : getRankInt (rankValue d) = .error er) :
    S.enrich_document d cur = .error er := by
  simp [enrich_document, hts, hrank, bind, Except.bind]

theorem enrich_err_base (S : RelevanceScorer) (d : Doc) (cur : DateTime) (ts : Value)
    (rank : ℤ) (er : ScoringError)
    (hts : dget d "timestamp" = some ts)
    (hrank : getRankInt (rankValue d) = .ok rank)
    (hb : S.calculate_base_rank_score rank = .error er) :
    S.enrich_document d cur = .error er := by
  simp [enrich_document, hts, hrank, hb, bind, Except.bind]

theorem enrich_err_recency (S : RelevanceScorer) (d : Doc) (cur : DateTime) (ts : Value)
    (rank : ℤ) (b : ℝ) (er : ScoringError)
    (hts : dget d "timestamp" = some ts)
    (hrank : getRankInt (rankValue d) = .ok rank)
    (hb : S.calculate_base_rank_score rank = .ok b)
    (hr : S.calculate_recency_score ts cur = .error er) :
    S.enrich_document d cur = .error er := by
  simp [enrich_document, hts, hrank, hb, hr, bind, Except.bind]

theorem enrich_ok_inv (S : RelevanceScorer) (d : Doc) (cur : DateTime) (e : Doc)
    (h : S.enrich_document d cur = .ok e) :
    ∃ ts rank b r,
      dget d "timestamp" = some ts ∧
      getRankInt (rankValue d) = .ok rank ∧
      S.calculate_base_rank_score rank = .ok b ∧
      S.calculate_recency_score ts cur = .ok r ∧
      e = S.writeScores d b r (S.base_weight * b + S.recency_weight * r) := by
  cases hts : dget d "timestamp" with
  | none => rw [enrich_missing S d cur hts] at h; exact absurd h (by simp)
  | some ts =>
    cases hrank : getRankInt (rankValue d) with
    | error er => rw [enrich_err_rank S d cur ts er hts hrank] at h; exact absurd h (by simp)
    | ok rank =>
      cases hb : S.calculate_base_rank_score rank with
      | error er => rw [enrich_err_base S d cur ts rank er hts hrank hb] at h
                    exact absurd h (by simp)
      | ok b =>
        cases hr : S.calculate_recency_score ts cur with
        | error er => rw [enrich_err_recency S d cur ts rank b er hts hrank hb hr] at h
                      exact absurd h (by simp)
        | ok r =>
          rw [enrich_ok S d cur ts rank b r hts hrank hb hr] at h
          refine ⟨ts, rank, b, r, rfl, rfl, hb, hr, ?_⟩
          injection h with h
          exact h.symm

theorem dget_writeScores_base (S : RelevanceScorer) (d : Doc) (b r rel : ℝ) :
    dget (S.writeScores d b r rel) "base_rank_score" = some (.real (roundTo6 b)) := by
  unfold writeScores
  rw [dget_dset_ne _ _ _ _ (by decide), dget_dset_ne _ _ _ _ (by decide),
    dget_dset_ne _ _ _ _ (by decide), dget_dset_self]

theorem dget_writeScores_recency (S : RelevanceScorer) (d : Doc) (b r rel : ℝ) :
    dget (S.writeScores d b r rel) "recency_score" = some (.real (roundTo6 r)) := by
  unfold writeScores
  rw [dget_dset_ne _ _ _ _ (by decide), dget_dset_ne _ _ _ _ (by decide), dget_dset_self]

theorem dget_writeScores_relevance (S : RelevanceScorer) (d : Doc) (b r rel : ℝ) :
    dget (S.writeScores d b r rel) "relevance_score" = some (.real (roundTo6 rel)) := by
  unfold writeScores
  rw [dget_dset_ne _ _ _ _ (by decide), dget_dset_self]

theorem dget_writeScores_engagement (S : RelevanceScorer) (d : Doc) (b r rel : ℝ) :
    dget (S.writeScores d b r rel) "user_engagement_score" =
      some (.real S.default_engagement) := by
  unfold writeScores
  rw [dget_dset_self]

theorem dget_writeScores_other (S : RelevanceScorer) (d : Doc) (b r rel : ℝ) (k : String)
    (h₁ : k ≠ "base_rank_score") (h₂ : k ≠ "recency_score")
    (h₃ : k ≠ "relevance_score") (h₄ : k ≠ "user_engagement_score") :
    dget (S.writeScores d b r rel) k = dget d k := by
  unfold writeScores
  rw [dget_dset_ne _ _ _ _ h₄, dget_dset_ne _ _ _ _ h₃,
    dget_dset_ne _ _ _ _ h₂, dget_dset_ne _ _ _ _ h₁]

end RelevanceScorer

theorem dget_append_of_none (d₁ d₂ : Doc) (k : String) (h : dget d₁ k = none) :
    dget (d₁ ++ d₂) k = dget d₂ k := by
  induction d₁ with
  | nil => rfl
  | cons hd tl ih =>
      obtain ⟨k₀, v₀⟩ := hd
      by_cases hk : k₀ = k
      · simp [dget, hk] at h
      · simp only [dget, hk, if_false] at h
        simpa [dget, hk] using ih h

theorem dget_append_single_ne (d : Doc) (k k' : String) (v : Value)
    (h : dget d k = none) (hne : k' ≠ k) : dget (d ++ [(k', v)]) k = none := by
  rw [dget_append_of_none _ _ _ h]
  simp [dget, hne]

theorem writeScores_eq_append (S : RelevanceScorer) (d : Doc) (b r rel : ℝ)
    (h₁ : dget d "base_rank_score" = none) (h₂ : dget d "recency_score" = none)
    (h₃ : dget d "relevance_score" = none) (h₄ : dget d "user_engagement_score" = none) :
    S.writeScores d b r rel =
      d ++ [("base_rank_score", .real (roundTo6 b)),
            ("recency_score", .real (roundTo6 r)),
            ("relevance_score", .real (roundTo6 rel)),
            ("user_engagement_score", .real S.default_engagement)] := by
  have hB : dget (d ++ [("base_rank_score", Value.real (roundTo6 b))]) "recency_score" = none :=
    dget_append_single_ne d "recency_score" "base_rank_score" (Value.real (roundTo6 b))
      h₂ (by decide)
  have hC : dget ((d ++ [("base_rank_score", Value.real (roundTo6 b))])
      ++ [("recency_score", Value.real (roundTo6 r))]) "relevance_score" = none :=
    dget_append_single_ne _ "relevance_score" "recency_score" (Value.real (roundTo6 r))
      (dget_append_single_ne d "relevance_score" "base_rank_score" (Value.real (roundTo6 b))
        h₃ (by decide)) (by decide)
  have hD : dget (((d ++ [("base_rank_score", Value.real (roundTo6 b))])
      ++ [("recency_score", Value.real (roundTo6 r))])
      ++ [("relevance_score", Value.real (roundTo6 rel))]) "user_engagement_score" = none :=
    dget_append_single_ne _ "user_engagement_score" "relevance_score" (Value.real (roundTo6 rel))
      (dget_append_single_ne _ "user_engagement_score" "recency_score" (Value.real (roundTo6 r))
        (dget_append_single_ne d "user_engagement_score" "base_rank_score"
          (Value.real (roundTo6 b)) h₄ (by decide)) (by decide)) (by decide)
  unfold RelevanceScorer.writeScores
  rw [dset_eq_append _ _ _ h₁, dset_eq_append _ _ _ hB, dset_eq_append _ _ _ hC,
    dset_eq_append _ _ _ hD]
  simp

/-! ### Evaluation helpers for concrete inputs -/

theorem roundTo6_one : roundTo6 1 = 1 := by
  rw [roundTo6, show ((1 : ℝ) * 1000000) = ((1000000 : ℤ) : ℝ) by norm_num, round_intCast]
  norm_num

namespace RelevanceScorer

theorem base_rank_one (S : RelevanceScorer) : S.calculate_base_rank_score 1 = .ok 1 := by
  rw [base_rank_ok S 1 le_rfl]
  norm_num

theorem recency_eval_ok (S : RelevanceScorer) (s : String) (dt cur : DateTime)
    (hp : parseTimestampStr s = some dt) (hdd : S.decay_days ≠ 0) :
    S.calculate_recency_score (.str s) cur =
      .ok (Real.exp (-(daysDiff (stripTz cur) (stripTz dt) : ℝ) / S.decay_days)) := by
  rw [recency_str_eq S s dt cur hp, recencyFromDays_ok S _ hdd]

theorem recency_eval_one (S : RelevanceScorer) (s : String) (dt cur : DateTime)
    (hp : parseTimestampStr s = some dt) (hdd : S.decay_days ≠ 0)
    (h0 : daysDiff (stripTz cur) (stripTz dt) = 0) :
    S.calculate_recency_score (.str s) cur = .ok 1 := by
  rw [recency_eval_ok S s dt cur hp hdd, h0]
  simp

end RelevanceScorer

theorem stripTz_idem (d : DateTime) : stripTz (stripTz d) = stripTz d := rfl

theorem daysDiff_neg_of_future (cur doc : DateTime) (h : toMicro cur < toMicro doc) :
    daysDiff cur doc < 0 := by
  unfold daysDiff microsPerDay
  rw [Int.fdiv_eq_ediv _ (by norm_num)]
  exact Int.ediv_neg' (by omega) (by norm_num)

namespace RelevanceScorer

/-! ### The claims -/

/-- C1: for every parsable timestamp string, `calculate_recency_score`
strips timezone information from both sides, takes the whole-day
difference `(reference − document).days` (floor semantics) and returns
`exp(-days_diff / decay_days)`; the score is 1 at `days_diff = 0` and
exceeds 1 for a document timestamp strictly in the future of the
reference; an unparsable string fails with `InvalidTimestampError`. -/
theorem recency_score_spec (S : RelevanceScorer) (s : String) (dt cur : DateTime)
    (hdecay : 0 < S.decay_days) :
    (parseTimestampStr s = some dt →
        S.calculate_recency_score (.str s) cur =
          .ok (Real.exp (-(daysDiff (stripTz cur) (stripTz dt) : ℝ) / S.decay_days))) ∧
    (parseTimestampStr s = some dt → daysDiff (stripTz cur) (stripTz dt) = 0 →
        S.calculate_recency_score (.str s) cur = .ok 1) ∧
    (parseTimestampStr s = some dt → toMicro (stripTz cur) < toMicro (stripTz dt) →
        1 < Real.exp (-(daysDiff (stripTz cur) (stripTz dt) : ℝ) / S.decay_days)) ∧
    (S.calculate_recency_score (.str s) (stripTz cur) =
        S.calculate_recency_score (.str s) cur) ∧
    (parseTimestampStr s = none →
        S.calculate_recency_score (.str s) cur = .error .invalidTimestamp) := by
  have hdd : S.decay_days ≠ 0 := ne_of_gt hdecay
  refine ⟨fun hp => recency_eval_ok S s dt cur hp hdd,
    fun hp h0 => recency_eval_one S s dt cur hp hdd h0, fun hp hfut => ?_, ?_,
    fun hp => recency_str_err S s cur hp⟩
  · have hneg : daysDiff (stripTz cur) (stripTz dt) < 0 := daysDiff_neg_of_future _ _ hfut
    rw [Real.one_lt_exp_iff]
    apply div_pos _ hdecay
    have : (daysDiff (stripTz cur) (stripTz dt) : ℝ) < 0 := by exact_mod_cast hneg
    linarith
  · cases hp' : parseTimestampStr s with
    | none => rw [recency_str_err S s _ hp', recency_str_err S s _ hp']
    | some dt' =>
        rw [recency_str_eq S s dt' _ hp', recency_str_eq S s dt' _ hp', stripTz_idem]

/-- Witness for C1: with the default configuration, the timestamp
`2024-03-05T00:00:00Z` scored against naive 2024-03-05 12:00 parses to an
aware datetime, has whole-day difference 0 and scores exactly 1, while an
unparsable string fails with `InvalidTimestampError`. -/
theorem recency_score_spec_witness :
    (0 : ℝ) < 30 ∧
    sampleScorer.calculate_recency_score (.str "2024-03-05T00:00:00Z") sampleCur = .ok 1 ∧
    sampleScorer.calculate_recency_score (.str "not-a-date") sampleCur =
      .error .invalidTimestamp := by
  have hdecay : 0 < sampleScorer.decay_days := by norm_num [sampleScorer]
  refine ⟨by norm_num, ?_, ?_⟩
  · exact (recency_score_spec sampleScorer "2024-03-05T00:00:00Z" sampleDT sampleCur
      hdecay).2.1 (by decide) (by decide)
  · exact (recency_score_spec sampleScorer "not-a-date" sampleDT sampleCur
      hdecay).2.2.2.2 (by decide)

/-- C2: for every rank ≥ 1 and every timestamp whose recency score is
defined, `calculate_relevance_score` is exactly the fixed-weight linear
blend `base_weight × base + recency_weight × recency` of the two component
scores, with no normalisation or clamping. -/
theorem relevance_blend_spec (S : RelevanceScorer) (rank : ℤ) (ts : Value)
    (cur : DateTime) (b r : ℝ) (_hrank : 1 ≤ rank)
    (hb : S.calculate_base_rank_score rank = .ok b)
    (hr : S.calculate_recency_score ts cur = .ok r) :
    S.calculate_relevance_score rank ts cur =
      .ok (S.base_weight * b + S.recency_weight * r) :=
  relevance_eq S rank ts cur b r hb hr

/-- Witness for C2: rank 1 and a same-day timestamp under the default
weights blend to `0.6 × 1 + 0.4 × 1 = 1`. -/
theorem relevance_blend_spec_witness :
    sampleScorer.calculate_relevance_score 1 (.str "2024-03-05T00:00:00Z") sampleCur =
      .ok 1 := by
  have hb := base_rank_one sampleScorer
  have hr := recency_eval_one sampleScorer "2024-03-05T00:00:00Z" sampleDT sampleCur
    (by decide) (by norm_num [sampleScorer]) (by decide)
  rw [relevance_blend_spec sampleScorer 1 (.str "2024-03-05T00:00:00Z") sampleCur 1 1
    le_rfl hb hr]
  norm_num [sampleScorer]

/-- C3: `calculate_base_rank_score` returns exactly `1.0 / rank` for every
rank ≥ 1 (so 1 at rank 1, strictly decreasing in rank, never zero) and
fails with `InvalidRankError` for every rank ≤ 0. -/
theorem base_rank_score_spec (S : RelevanceScorer) (r₁ r₂ : ℤ) :
    (1 ≤ r₁ → S.calculate_base_rank_score r₁ = .ok (1 / (r₁ : ℝ))) ∧
    (S.calculate_base_rank_score 1 = .ok 1) ∧
    (1 ≤ r₁ → 1 / (r₁ : ℝ) ≠ 0) ∧
    (1 ≤ r₁ → r₁ < r₂ → 1 / (r₂ : ℝ) < 1 / (r₁ : ℝ)) ∧
    (r₁ ≤ 0 → S.calculate_base_rank_score r₁ = .error .invalidRank) := by
  refine ⟨fun h => base_rank_ok S r₁ h, base_rank_one S, fun h => ?_, fun h h' => ?_,
    fun h => base_rank_err S r₁ h⟩
  · have : (0 : ℝ) < (r₁ : ℝ) := by exact_mod_cast (by omega : (0 : ℤ) < r₁)
    positivity
  · have h1 : (0 : ℝ) < (r₁ : ℝ) := by exact_mod_cast (by omega : (0 : ℤ) < r₁)
    have h2 : (r₁ : ℝ) < (r₂ : ℝ) := by exact_mod_cast h'
    exact div_lt_div_of_pos_left one_pos h1 h2

/-- Witness for C3: ranks 2 < 3 give scores 1/2 > 1/3, rank 1 gives 1, and
rank 0 is rejected. -/
theorem base_rank_score_spec_witness :
    sampleScorer.calculate_base_rank_score 2 = .ok (1 / ((2 : ℤ) : ℝ)) ∧
    sampleScorer.calculate_base_rank_score 1 = .ok 1 ∧
    (1 / ((2 : ℤ) : ℝ) ≠ 0) ∧
    (1 / ((3 : ℤ) : ℝ) < 1 / ((2 : ℤ) : ℝ)) ∧
    sampleScorer.calculate_base_rank_score 0 = .error .invalidRank := by
  have h := base_rank_score_spec sampleScorer 2 3
  have h0 := base_rank_score_spec sampleScorer 0 1
  exact ⟨h.1 one_le_two, h.2.1, h.2.2.1 one_le_two,
    h.2.2.2.1 one_le_two (by norm_num), h0.2.2.2.2 le_rfl⟩

/-- C7: for a fixed positive decay period the recency score strictly
decreases as the day difference grows, and for a fixed positive day
difference a larger decay period strictly increases the score. -/
theorem recency_monotone_spec (S S' : RelevanceScorer) (d d₁ d₂ : ℤ) (x₁ x₂ y y' : ℝ) :
    (0 < S.decay_days → d₁ < d₂ →
        S.recencyFromDays d₁ = .ok x₁ → S.recencyFromDays d₂ = .ok x₂ → x₂ < x₁) ∧
    (0 < S.decay_days → S.decay_days < S'.decay_days → 0 < d →
        S.recencyFromDays d = .ok y → S'.recencyFromDays d = .ok y' → y < y') := by
  constructor
  · intro hS h12 hx₁ hx₂
    rw [recencyFromDays_ok S d₁ (ne_of_gt hS)] at hx₁
    rw [recencyFromDays_ok S d₂ (ne_of_gt hS)] at hx₂
    injection hx₁ with hx₁
    injection hx₂ with hx₂
    rw [← hx₁, ← hx₂, Real.exp_lt_exp]
    have : (d₁ : ℝ) < (d₂ : ℝ) := by exact_mod_cast h12
    apply div_lt_div_of_pos_right _ hS
    linarith
  · intro hS hSS' hd hy hy'
    have hS' : 0 < S'.decay_days := lt_trans hS hSS'
    rw [recencyFromDays_ok S d (ne_of_gt hS)] at hy
    rw [recencyFromDays_ok S' d (ne_of_gt hS')] at hy'
    injection hy with hy
    injection hy' with hy'
    rw [← hy, ← hy', Real.exp_lt_exp, neg_div, neg_div, neg_lt_neg_iff]
    have hdR : (0 : ℝ) < (d : ℝ) := by exact_mod_cast hd
    exact div_lt_div_of_pos_left hdR hS hSS'

/-- Witness for C7: with decay 30, day differences 0 < 1 give
`exp(-1/30) < exp(0/30)`; with day difference 1, decays 30 < 60 give
`exp(-1/30) < exp(-1/60)`. -/
theorem recency_monotone_spec_witness :
    Real.exp (-((1 : ℤ) : ℝ) / 30) < Real.exp (-((0 : ℤ) : ℝ) / 30) ∧
    Real.exp (-((1 : ℤ) : ℝ) / 30) < Real.exp (-((1 : ℤ) : ℝ) / 60) := by
  have h30 : (0 : ℝ) < sampleScorer.decay_days := by norm_num [sampleScorer]
  have h3060 : sampleScorer.decay_days < (⟨0.6, 0.4, 60, 0.5⟩ : RelevanceScorer).decay_days := by
    norm_num [sampleScorer]
  have hne : sampleScorer.decay_days ≠ 0 := ne_of_gt h30
  have hne' : (⟨0.6, 0.4, 60, 0.5⟩ : RelevanceScorer).decay_days ≠ 0 := by
    norm_num [sampleScorer]
  constructor
  · exact (recency_monotone_spec sampleScorer sampleScorer 1 0 1
        (Real.exp (-((0 : ℤ) : ℝ) / 30)) (Real.exp (-((1 : ℤ) : ℝ) / 30))
        (Real.exp (-((1 : ℤ) : ℝ) / 30)) (Real.exp (-((1 : ℤ) : ℝ) / 30))).1
      h30 (by norm_num) (recencyFromDays_ok sampleScorer 0 hne)
      (recencyFromDays_ok sampleScorer 1 hne)
  · exact (recency_monotone_spec sampleScorer ⟨0.6, 0.4, 60, 0.5⟩ 1 0 1
        (Real.exp (-((0 : ℤ) : ℝ) / 30)) (Real.exp (-((1 : ℤ) : ℝ) / 30))
        (Real.exp (-((1 : ℤ) : ℝ) / 30)) (Real.exp (-((1 : ℤ) : ℝ) / 60))).2
      h30 h3060 (by norm_num) (recencyFromDays_ok sampleScorer 1 hne)
      (recencyFromDays_ok ⟨0.6, 0.4, 60, 0.5⟩ 1 hne')

/-- Counterexample to C8 as stated: a scorer constructed with
`decay_days = -30 ≤ 0` does not fail — `calculate_recency_score` returns
the score `exp(-0 / -30) = 1` on a parsable same-day timestamp, because
the source validates `decay_days` nowhere and only `decay_days == 0`
raises (`ZeroDivisionError` at the division). -/
theorem decay_nonpos_counterexample :
    (⟨0.6, 0.4, -30, 0.5⟩ : RelevanceScorer).decay_days ≤ 0 ∧
    (⟨0.6, 0.4, -30, 0.5⟩ : RelevanceScorer).calculate_recency_score
      (.str "2024-03-05T00:00:00Z") sampleCur = .ok 1 := by
  constructor
  · norm_num
  · exact recency_eval_one ⟨0.6, 0.4, -30, 0.5⟩ "2024-03-05T00:00:00Z" sampleDT sampleCur
      (by decide) (by norm_num) (by decide)

/-- C8 amended: scoring fails precisely when `decay_days = 0` — on every
parsable timestamp the recency computation then raises
`ZeroDivisionError`; for any nonzero `decay_days`, negative values
included, it returns `exp(-days_diff / decay_days)` without failing. -/
theorem recency_decay_amended_spec (S : RelevanceScorer) (s : String) (dt cur : DateTime)
    (hp : parseTimestampStr s = some dt) :
    (S.decay_days = 0 →
        S.calculate_recency_score (.str s) cur = .error .zeroDivision) ∧
    (S.decay_days ≠ 0 →
        S.calculate_recency_score (.str s) cur =
          .ok (Real.exp (-(daysDiff (stripTz cur) (stripTz dt) : ℝ) / S.decay_days))) := by
  constructor
  · intro h0
    rw [recency_str_eq S s dt cur hp, recencyFromDays_zero S _ h0]
  · intro hne
    exact recency_eval_ok S s dt cur hp hne

/-- Witness for C8's amended claim: with `decay_days = 0` the same-day
score fails with `ZeroDivisionError`; with `decay_days = -30` it is
returned. -/
theorem recency_decay_amended_spec_witness :
    (⟨0.6, 0.4, 0, 0.5⟩ : RelevanceScorer).calculate_recency_score
      (.str "2024-03-05T00:00:00Z") sampleCur = .error .zeroDivision ∧
    (⟨0.6, 0.4, -30, 0.5⟩ : RelevanceScorer).calculate_recency_score
      (.str "2024-03-05T00:00:00Z") sampleCur =
        .ok (Real.exp (-(daysDiff (stripTz sampleCur) (stripTz sampleDT) : ℝ) / -30)) := by
  constructor
  · exact (recency_decay_amended_spec ⟨0.6, 0.4, 0, 0.5⟩ "2024-03-05T00:00:00Z" sampleDT
      sampleCur (by decide)).1 rfl
  · exact (recency_decay_amended_spec ⟨0.6, 0.4, -30, 0.5⟩ "2024-03-05T00:00:00Z" sampleDT
      sampleCur (by decide)).2 (by norm_num)

/-- C4: whenever `enrich_document` succeeds on a document that carries
none of the four score fields, the result is literally the input list
with exactly the four score fields appended — `base_rank_score`,
`recency_score` and `relevance_score` rounded to 6 decimal places and
`user_engagement_score` equal to the configured constant — so every input
field keeps its value and position, and the input value itself is
untouched (the source copies the dict before writing). -/
theorem enrich_frame_spec (S : RelevanceScorer) (d e : Doc) (cur : DateTime) (ts : Value)
    (rank : ℤ) (b r : ℝ)
    (hf₁ : dget d "base_rank_score" = none) (hf₂ : dget d "recency_score" = none)
    (hf₃ : dget d "relevance_score" = none) (hf₄ : dget d "user_engagement_score" = none)
    (hts : dget d "timestamp" = some ts)
    (hrank : getRankInt (rankValue d) = .ok rank)
    (hb : S.calculate_base_rank_score rank = .ok b)
    (hr : S.calculate_recency_score ts cur = .ok r)
    (h : S.enrich_document d cur = .ok e) :
    e = d ++ [("base_rank_score", .real (roundTo6 b)),
              ("recency_score", .real (roundTo6 r)),
              ("relevance_score", .real (roundTo6 (S.base_weight * b + S.recency_weight * r))),
              ("user_engagement_score", .real S.default_engagement)] := by
  rw [enrich_ok S d cur ts rank b r hts hrank hb hr] at h
  injection h with h
  rw [← h]
  exact writeScores_eq_append S d b r _ hf₁ hf₂ hf₃ hf₄

/-- Witness for C4: enriching the concrete sample document appends
exactly the four score fields to it. -/
theorem enrich_frame_spec_witness :
    sampleEnriched =
      sampleDoc ++
        [("base_rank_score", .real (roundTo6 1)),
         ("recency_score", .real (roundTo6 1)),
         ("relevance_score",
           .real (roundTo6 (sampleScorer.base_weight * 1 + sampleScorer.recency_weight * 1))),
         ("user_engagement_score", .real sampleScorer.default_engagement)] := by
  have hr := recency_eval_one sampleScorer "2024-03-05T00:00:00Z" sampleDT sampleCur
    (by decide) (by norm_num [sampleScorer]) (by decide)
  exact enrich_frame_spec sampleScorer sampleDoc sampleEnriched sampleCur
    (.str "2024-03-05T00:00:00Z") 1 1 1 rfl rfl rfl rfl rfl rfl
    (base_rank_one sampleScorer) hr
    (enrich_ok sampleScorer sampleDoc sampleCur (.str "2024-03-05T00:00:00Z") 1 1 1
      rfl rfl (base_rank_one sampleScorer) hr)

/-- C5: `enrich_document` fails with `MissingFieldError` on every document
without a `timestamp` field, whatever other fields it has; a document
without a `rank` field silently gets rank 1; and a failure of the rank or
timestamp validator propagates out of `enrich_document` unchanged, no
document (hence no score field) being produced. -/
theorem enrich_error_spec (S : RelevanceScorer) (d : Doc) (cur : DateTime) (ts : Value)
    (rank : ℤ) (b : ℝ) (er : ScoringError) :
    (dget d "timestamp" = none → S.enrich_document d cur = .error .missingField) ∧
    (dget d "rank" = none → rankValue d = .int 1) ∧
    (dget d "timestamp" = some ts → getRankInt (rankValue d) = .ok rank →
        S.calculate_base_rank_score rank = .error er →
        S.enrich_document d cur = .error er) ∧
    (dget d "timestamp" = some ts → getRankInt (rankValue d) = .ok rank →
        S.calculate_base_rank_score rank = .ok b →
        S.calculate_recency_score ts cur = .error er →
        S.enrich_document d cur = .error er) := by
  refine ⟨fun h => enrich_missing S d cur h, fun h => ?_,
    fun h1 h2 h3 => enrich_err_base S d cur ts rank er h1 h2 h3,
    fun h1 h2 h3 h4 => enrich_err_recency S d cur ts rank b er h1 h2 h3 h4⟩
  unfold rankValue
  rw [h]
  rfl

/-- Witness for C5: a document with a rank but no timestamp fails with
`MissingFieldError`; one with a timestamp but no rank gets rank 1; rank 0
propagates `InvalidRankError`; an unparsable timestamp propagates
`InvalidTimestampError`. -/
theorem enrich_error_spec_witness :
    sampleScorer.enrich_document [("rank", Value.int 1)] sampleCur =
      .error .missingField ∧
    rankValue [("timestamp", Value.str "2024-03-05T00:00:00Z")] = .int 1 ∧
    sampleScorer.enrich_document
      [("rank", Value.int 0), ("timestamp", Value.str "2024-03-05T00:00:00Z")] sampleCur =
        .error .invalidRank ∧
    sampleScorer.enrich_document badDoc sampleCur = .error .invalidTimestamp := by
  refine ⟨?_, ?_, ?_, ?_⟩
  · exact (enrich_error_spec sampleScorer [("rank", Value.int 1)] sampleCur
      (Value.int 1) 1 1 .missingField).1 rfl
  · exact (enrich_error_spec sampleScorer [("timestamp", Value.str "2024-03-05T00:00:00Z")]
      sampleCur (Value.int 1) 1 1 .missingField).2.1 rfl
  · exact (enrich_error_spec sampleScorer
      [("rank", Value.int 0), ("timestamp", Value.str "2024-03-05T00:00:00Z")] sampleCur
      (Value.str "2024-03-05T00:00:00Z") 0 1 .invalidRank).2.2.1 rfl rfl
      (base_rank_err sampleScorer 0 le_rfl)
  · exact (enrich_error_spec sampleScorer badDoc sampleCur
      (Value.str "not-a-date") 1 1 .invalidTimestamp).2.2.2 rfl rfl
      (base_rank_one sampleScorer)
      (recency_str_err sampleScorer "not-a-date" sampleCur (by decide))

/-- C6: enrichment is idempotent for a fixed reference time — re-running
`enrich_document` on an already-enriched document succeeds and reproduces
the same four score fields (they are overwritten with the same values,
not accumulated). -/
theorem enrich_idempotent_spec (S : RelevanceScorer) (d e : Doc) (cur : DateTime)
    (h : S.enrich_document d cur = .ok e) :
    (S.enrich_document e cur).map scoreFields = .ok (scoreFields e) := by
  obtain ⟨ts, rank, b, r, hts, hrank, hb, hr, he⟩ := enrich_ok_inv S d cur e h
  have hts' : dget e "timestamp" = some ts := by
    rw [he, dget_writeScores_other S d b r _ "timestamp"
      (by decide) (by decide) (by decide) (by decide)]
    exact hts
  have hrank' : getRankInt (rankValue e) = .ok rank := by
    unfold rankValue
    rw [he, dget_writeScores_other S d b r _ "rank"
      (by decide) (by decide) (by decide) (by decide)]
    exact hrank
  have hfields : scoreFields
      (S.writeScores e b r (S.base_weight * b + S.recency_weight * r)) = scoreFields e := by
    unfold scoreFields
    rw [dget_writeScores_base, dget_writeScores_recency, dget_writeScores_relevance,
      dget_writeScores_engagement, he, dget_writeScores_base, dget_writeScores_recency,
      dget_writeScores_relevance, dget_writeScores_engagement]
  rw [enrich_ok S e cur ts rank b r hts' hrank' hb hr]
  simp only [Except.map]
  rw [hfields]

/-- Witness for C6: re-enriching the enriched sample document succeeds
and leaves its four score fields unchanged. -/
theorem enrich_idempotent_spec_witness :
    (sampleScorer.enrich_document sampleEnriched sampleCur).map scoreFields =
      .ok (scoreFields sampleEnriched) := by
  have hr := recency_eval_one sampleScorer "2024-03-05T00:00:00Z" sampleDT sampleCur
    (by decide) (by norm_num [sampleScorer]) (by decide)
  exact enrich_idempotent_spec sampleScorer sampleDoc sampleEnriched sampleCur
    (enrich_ok sampleScorer sampleDoc sampleCur (.str "2024-03-05T00:00:00Z") 1 1 1
      rfl rfl (base_rank_one sampleScorer) hr)

/-- C10: the `relevance_score` field written by `enrich_document` is the
rounding of the blend of the *unrounded* component scores,
`round(base_weight × b + recency_weight × r, 6)`, while the stored
`base_rank_score` and `recency_score` fields are the separately rounded
`round(b, 6)` and `round(r, 6)` — the blend is not recomputed from the
stored rounded fields. -/
theorem relevance_unrounded_spec (S : RelevanceScorer) (d e : Doc) (cur : DateTime)
    (ts : Value) (rank : ℤ) (b r : ℝ)
    (hts : dget d "timestamp" = some ts)
    (hrank : getRankInt (rankValue d) = .ok rank)
    (hb : S.calculate_base_rank_score rank = .ok b)
    (hr : S.calculate_recency_score ts cur = .ok r)
    (h : S.enrich_document d cur = .ok e) :
    dget e "relevance_score" =
      some (.real (roundTo6 (S.base_weight * b + S.recency_weight * r))) ∧
    dget e "base_rank_score" = some (.real (roundTo6 b)) ∧
    dget e "recency_score" = some (.real (roundTo6 r)) := by
  rw [enrich_ok S d cur ts rank b r hts hrank hb hr] at h
  injection h with h
  rw [← h]
  exact ⟨dget_writeScores_relevance S d b r _, dget_writeScores_base S d b r _,
    dget_writeScores_recency S d b r _⟩

/-- Witness for C10: the enriched sample document stores
`round(0.6 × 1 + 0.4 × 1, 6)` as its relevance score and the rounded
component scores separately. -/
theorem relevance_unrounded_spec_witness :
    dget sampleEnriched "relevance_score" =
      some (.real (roundTo6 (sampleScorer.base_weight * 1 + sampleScorer.recency_weight * 1))) ∧
    dget sampleEnriched "base_rank_score" = some (.real (roundTo6 1)) ∧
    dget sampleEnriched "recency_score" = some (.real (roundTo6 1)) := by
  have hr := recency_eval_one sampleScorer "2024-03-05T00:00:00Z" sampleDT sampleCur
    (by decide) (by norm_num [sampleScorer]) (by decide)
  exact relevance_unrounded_spec sampleScorer sampleDoc sampleEnriched sampleCur
    (.str "2024-03-05T00:00:00Z") 1 1 1 rfl rfl (base_rank_one sampleScorer) hr
    (enrich_ok sampleScorer sampleDoc sampleCur (.str "2024-03-05T00:00:00Z") 1 1 1
      rfl rfl (base_rank_one sampleScorer) hr)

end RelevanceScorer

theorem scoreLoop_all_ok (S : RelevanceScorer) (cur : DateTime) (g es : List Doc)
    (h : List.Forall₂ (fun a e => S.enrich_document a cur = .ok e) g es) :
    scoreLoop S cur g = (es, 0) := by
  induction h with
  | nil => rfl
  | cons hae _ ih => simp [scoreLoop, ih, hae]

theorem scoreLoop_one_bad (S : RelevanceScorer) (cur : DateTime)
    (g₁ g₂ e₁ e₂ : List Doc) (bad : Doc) (er : ScoringError)
    (h₁ : List.Forall₂ (fun a e => S.enrich_document a cur = .ok e) g₁ e₁)
    (h₂ : List.Forall₂ (fun a e => S.enrich_document a cur = .ok e) g₂ e₂)
    (hbad : S.enrich_document bad cur = .error er) :
    scoreLoop S cur (g₁ ++ bad :: g₂) = (e₁ ++ bad :: e₂, 1) := by
  induction h₁ with
  | nil =>
      simp only [List.nil_append]
      simp [scoreLoop, scoreLoop_all_ok S cur g₂ e₂ h₂, hbad]
  | cons hae _ ih => simp [scoreLoop, ih, hae]

/-- C9: in the per-document loop of `process_query`, a batch of 10
documents of which exactly one fails to enrich yields the 9 enriched
documents in their original positions, the bad document passed through
unscored in its position, and exactly 1 recorded failure — the bad
document never aborts the batch. -/
theorem batch_partial_failure_spec (S : RelevanceScorer) (cur : DateTime)
    (g₁ g₂ e₁ e₂ : List Doc) (bad : Doc) (er : ScoringError)
    (h₁ : List.Forall₂ (fun a e => S.enrich_document a cur = .ok e) g₁ e₁)
    (h₂ : List.Forall₂ (fun a e => S.enrich_document a cur = .ok e) g₂ e₂)
    (hbad : S.enrich_document bad cur = .error er)
    (hlen : g₁.length + g₂.length = 9) :
    scoreLoop S cur (g₁ ++ bad :: g₂) = (e₁ ++ bad :: e₂, 1) ∧
    (g₁ ++ bad :: g₂).length = 10 ∧ (e₁ ++ bad :: e₂).length = 10 := by
  have len1 := h₁.length_eq
  have len2 := h₂.length_eq
  exact ⟨scoreLoop_one_bad S cur g₁ g₂ e₁ e₂ bad er h₁ h₂ hbad,
    by simp; omega, by simp; omega⟩

/-- Witness for C9: a concrete batch of 10 documents — 9 copies of the
sample document around one with an unparsable timestamp — yields the 9
enriched copies in order, the bad document unchanged in its position, and
failure count 1. -/
theorem batch_partial_failure_spec_witness :
    scoreLoop sampleScorer sampleCur
        (List.replicate 4 sampleDoc ++ badDoc :: List.replicate 5 sampleDoc) =
      (List.replicate 4 sampleEnriched ++ badDoc :: List.replicate 5 sampleEnriched, 1) ∧
    (List.replicate 4 sampleDoc ++ badDoc :: List.replicate 5 sampleDoc).length = 10 ∧
    (List.replicate 4 sampleEnriched ++ badDoc :: List.replicate 5 sampleEnriched).length
      = 10 := by
  have hr := RelevanceScorer.recency_eval_one sampleScorer "2024-03-05T00:00:00Z" sampleDT
    sampleCur (by decide) (by norm_num [sampleScorer]) (by decide)
  have h : sampleScorer.enrich_document sampleDoc sampleCur = .ok sampleEnriched :=
    RelevanceScorer.enrich_ok sampleScorer sampleDoc sampleCur
      (.str "2024-03-05T00:00:00Z") 1 1 1 rfl rfl
      (RelevanceScorer.base_rank_one sampleScorer) hr
  have hbad : sampleScorer.enrich_document badDoc sampleCur = .error .invalidTimestamp :=
    RelevanceScorer.enrich_err_recency sampleScorer badDoc sampleCur
      (.str "not-a-date") 1 1 .invalidTimestamp rfl rfl
      (RelevanceScorer.base_rank_one sampleScorer)
      (RelevanceScorer.recency_str_err sampleScorer "not-a-date" sampleCur (by decide))
  exact batch_partial_failure_spec sampleScorer sampleCur
    (List.replicate 4 sampleDoc) (List.replicate 5 sampleDoc)
    (List.replicate 4 sampleEnriched) (List.replicate 5 sampleEnriched)
    badDoc .invalidTimestamp
    (List.Forall₂.cons h (List.Forall₂.cons h (List.Forall₂.cons h
      (List.Forall₂.cons h List.Forall₂.nil))))
    (List.Forall₂.cons h (List.Forall₂.cons h (List.Forall₂.cons h
      (List.Forall₂.cons h (List.Forall₂.cons h List.Forall₂.nil)))))
    hbad (by simp)

end Query
